import Mathlib

set_option maxHeartbeats 1000000

namespace SecureChat

/-! Shallow embedding of the secure-chat authentication backend.

The process environment is modelled as an association list from variable
names to string values; JavaScript string truthiness (undefined and the
empty string are falsy) is made explicit by `truthy` and `jsOrStr`. -/

abbrev ProcessEnv := List (String × String)

def getEnv (env : ProcessEnv) (k : String) : Option String :=
  env.lookup k

/-- Truthiness of an optional environment value, as tested by the
JavaScript checks in the source: absent and empty string are falsy. -/
def truthy : Option String → Bool
  | none => false
  | some s => !(s == "")

/-- Model of the JavaScript expression a || b for an optional string a:
the default b is used when a is absent or empty. -/
def jsOrStr (a : Option String) (b : String) : String :=
  match a with
  | some s => if s == "" then b else s
  | none => b

def decDigit? (c : Char) : Option Nat :=
  if c.isDigit then some (c.toNat - 48) else none

def decDigitsVal (cs : List Char) (acc : Nat) : Option Nat :=
  match cs with
  | [] => some acc
  | c :: rest =>
      match decDigit? c with
      | some d => decDigitsVal rest (acc * 10 + d)
      | none => none

/-- Model of parseInt on a decimal string: none models NaN. Implemented
structurally over the character sequence. -/
def jsParseInt (s : String) : Option Nat :=
  match s.data with
  | [] => none
  | cs => decDigitsVal cs 0

def exceptIsOk {ε α : Type} (e : Except ε α) : Bool :=
  match e with
  | .ok _ => true
  | .error _ => false

/-! Model of signed JWT values. A token value is either a well-formed
signed token or a malformed string; the payload carries either the access
claims or the opaque refresh token identifier, exactly the two payload
shapes signed by src/auth-service/src/utils/jwt.ts. Times are split the
way the source splits them: the exp claim is in seconds (jsonwebtoken),
while wall-clock instants are in milliseconds (Date.now()). An exp of 0
models an absent exp claim: both are falsy in the checks of the source. -/

inductive JwtPayload where
  | access (userId : Nat) (email username : String) (isVerified : Bool)
  | refreshId (tokenId : Nat)
deriving DecidableEq, Repr

structure Jwt where
  payload : JwtPayload
  secret : String
  iat : Nat
  exp : Nat
deriving DecidableEq, Repr

inductive Token where
  | jwt (t : Jwt)
  | malformed (s : String)
deriving DecidableEq, Repr

/-- Model of jwt.decode: reading the payload without checking the
signature; malformed input yields none. -/
def Token.decode : Token → Option Jwt
  | .jwt t => some t
  | .malformed _ => none

/-- Model of jwt.verify of the jsonwebtoken library: the token must be
well formed, signed with the given secret, and not expired (a token with
exp claim e is rejected from the instant e * 1000 milliseconds onward;
exp 0 models an absent claim, which jsonwebtoken does not check). -/
def jwtVerify (tok : Token) (secret : String) (nowMs : Nat) : Option Jwt :=
  match tok.decode with
  | none => none
  | some t =>
      if t.secret = secret ∧ (t.exp = 0 ∨ nowMs < t.exp * 1000) then some t else none

/-- Model of the duration strings accepted by the jsonwebtoken expiresIn
option, abstracted as a number of seconds; the two defaults used by the
source are mapped to their values. -/
def parseExpiresIn (s : String) : Nat :=
  if s == "15m" then 15 * 60
  else if s == "7d" then 7 * 24 * 60 * 60
  else (jsParseInt s).getD 0

/-- JWTUtils.getAccessTokenSecret: reads JWT_SECRET, throwing when the
value is falsy (absent or empty). -/
def getAccessTokenSecret (env : ProcessEnv) : Except String String :=
  match getEnv env "JWT_SECRET" with
  | some s => if s == "" then .error "JWT_SECRET environment variable is required" else .ok s
  | none => .error "JWT_SECRET environment variable is required"

/-- JWTUtils.getRefreshTokenSecret: reads JWT_REFRESH_SECRET, throwing
when the value is falsy (absent or empty). -/
def getRefreshTokenSecret (env : ProcessEnv) : Except String String :=
  match getEnv env "JWT_REFRESH_SECRET" with
  | some s => if s == "" then .error "JWT_REFRESH_SECRET environment variable is required" else .ok s
  | none => .error "JWT_REFRESH_SECRET environment variable is required"

structure AccessClaims where
  userId : Nat
  email : String
  username : String
  isVerified : Bool
deriving DecidableEq, Repr

structure TokenPair where
  accessToken : Jwt
  refreshToken : Jwt
deriving DecidableEq, Repr

/-- JWTUtils.generateAccessToken: signs the user claims with the access
secret and the configured expiry (default 15m). -/
def generateAccessToken (env : ProcessEnv) (claims : AccessClaims) (nowMs : Nat) :
    Except String Jwt :=
  match getAccessTokenSecret env with
  | .error e => .error e
  | .ok secret =>
      let expiresIn := jsOrStr (getEnv env "JWT_EXPIRES_IN") "15m"
      .ok { payload := .access claims.userId claims.email claims.username claims.isVerified,
            secret := secret, iat := nowMs / 1000,
            exp := nowMs / 1000 + parseExpiresIn expiresIn }

/-- JWTUtils.generateRefreshToken: signs an object holding only a fresh
random token identifier with the refresh secret and the configured expiry
(default 7d). The uuidv4 call of the source is modelled by the explicit
tokenId argument, drawn from the fresh-value supply by each caller. -/
def generateRefreshToken (env : ProcessEnv) (tokenId : Nat) (nowMs : Nat) :
    Except String Jwt :=
  match getRefreshTokenSecret env with
  | .error e => .error e
  | .ok secret =>
      let expiresIn := jsOrStr (getEnv env "JWT_REFRESH_EXPIRES_IN") "7d"
      .ok { payload := .refreshId tokenId, secret := secret, iat := nowMs / 1000,
            exp := nowMs / 1000 + parseExpiresIn expiresIn }

/-- JWTUtils.generateTokenPair: composition of the two generators. -/
def generateTokenPair (env : ProcessEnv) (claims : AccessClaims) (tokenId : Nat) (nowMs : Nat) :
    Except String TokenPair :=
  match generateAccessToken env claims nowMs with
  | .error e => .error e
  | .ok a =>
      match generateRefreshToken env tokenId nowMs with
      | .error e => .error e
      | .ok r => .ok { accessToken := a, refreshToken := r }

/-- JWTUtils.verifyAccessToken: any failure inside the try block, the
missing-secret throw included, is caught and rethrown as the single
invalid-access-token error. -/
def verifyAccessToken (env : ProcessEnv) (tok : Token) (nowMs : Nat) : Except String Jwt :=
  match getAccessTokenSecret env with
  | .error _ => .error "Invalid access token"
  | .ok secret =>
      match jwtVerify tok secret nowMs with
      | some t => .ok t
      | none => .error "Invalid access token"

/-- JWTUtils.verifyRefreshToken: same contract with the refresh secret. -/
def verifyRefreshToken (env : ProcessEnv) (tok : Token) (nowMs : Nat) : Except String Jwt :=
  match getRefreshTokenSecret env with
  | .error _ => .error "Invalid refresh token"
  | .ok secret =>
      match jwtVerify tok secret nowMs with
      | some t => .ok t
      | none => .error "Invalid refresh token"

/-- Character-level prefix test, modelling the JavaScript startsWith on
the character sequence of the string. -/
def strStartsWith (s pre : String) : Bool :=
  pre.data.isPrefixOf s.data

/-- Character-level substring from index n, modelling the JavaScript
substring(n) on the character sequence of the string. -/
def strDropChars (s : String) (n : Nat) : String :=
  String.mk (s.data.drop n)

/-- JWTUtils.extractTokenFromHeader: a falsy header (absent or empty) or
a header without the Bearer prefix yields none; otherwise the 7-character
prefix is removed. -/
def extractTokenFromHeader (authHeader : Option String) : Option String :=
  match authHeader with
  | none => none
  | some h =>
      if h == "" then none
      else if strStartsWith h "Bearer " then some (strDropChars h 7)
      else none

/-- JWTUtils.getTokenExpiration: decodes without verifying and returns
the exp claim as a millisecond timestamp; none on malformed input or a
falsy exp claim. -/
def getTokenExpiration (tok : Token) : Option Nat :=
  match tok.decode with
  | some t => if t.exp ≠ 0 then some (t.exp * 1000) else none
  | none => none

/-- JWTUtils.isTokenExpired: unknown expiration counts as expired, and a
known expiration e is expired from the instant e onward (a non-strict
comparison in the source). -/
def isTokenExpired (tok : Token) (nowMs : Nat) : Bool :=
  match getTokenExpiration tok with
  | none => true
  | some e => decide (e ≤ nowMs)

/-! Model of validateEnv from the environment-validation module. -/

def requiredEnvVars : List String :=
  ["DATABASE_URL", "REDIS_URL", "JWT_SECRET", "JWT_REFRESH_SECRET", "FRONTEND_URL"]

structure EnvConfig where
  NODE_ENV : String
  PORT : Option Nat
  DATABASE_URL : String
  REDIS_URL : String
  JWT_SECRET : String
  JWT_REFRESH_SECRET : String
  JWT_EXPIRES_IN : String
  JWT_REFRESH_EXPIRES_IN : String
  SMTP_HOST : Option String
  SMTP_PORT : Option Nat
  SMTP_USER : Option String
  SMTP_PASS : Option String
  FROM_EMAIL : Option String
  BCRYPT_ROUNDS : Option Nat
  FRONTEND_URL : String
  RATE_LIMIT_WINDOW_MS : Option Nat
  RATE_LIMIT_MAX_REQUESTS : Option Nat
deriving DecidableEq, Repr

/-- validateEnv: throws when any of the five checked variables is falsy,
and otherwise builds the config record, defaulting every other value. -/
def validateEnv (env : ProcessEnv) : Except String EnvConfig :=
  let missing := requiredEnvVars.filter (fun v => !truthy (getEnv env v))
  if missing.length > 0 then
    .error ("Missing required environment variables: " ++ String.intercalate ", " missing)
  else
    .ok {
      NODE_ENV := jsOrStr (getEnv env "NODE_ENV") "development",
      PORT := jsParseInt (jsOrStr (getEnv env "PORT") "3001"),
      DATABASE_URL := (getEnv env "DATABASE_URL").getD "",
      REDIS_URL := (getEnv env "REDIS_URL").getD "",
      JWT_SECRET := (getEnv env "JWT_SECRET").getD "",
      JWT_REFRESH_SECRET := (getEnv env "JWT_REFRESH_SECRET").getD "",
      JWT_EXPIRES_IN := jsOrStr (getEnv env "JWT_EXPIRES_IN") "15m",
      JWT_REFRESH_EXPIRES_IN := jsOrStr (getEnv env "JWT_REFRESH_EXPIRES_IN") "7d",
      SMTP_HOST := getEnv env "SMTP_HOST",
      SMTP_PORT := if truthy (getEnv env "SMTP_PORT") then
          jsParseInt ((getEnv env "SMTP_PORT").getD "") else some 587,
      SMTP_USER := getEnv env "SMTP_USER",
      SMTP_PASS := getEnv env "SMTP_PASS",
      FROM_EMAIL := getEnv env "FROM_EMAIL",
      BCRYPT_ROUNDS := jsParseInt (jsOrStr (getEnv env "BCRYPT_ROUNDS") "12"),
      FRONTEND_URL := (getEnv env "FRONTEND_URL").getD "",
      RATE_LIMIT_WINDOW_MS := jsParseInt (jsOrStr (getEnv env "RATE_LIMIT_WINDOW_MS") "900000"),
      RATE_LIMIT_MAX_REQUESTS := jsParseInt (jsOrStr (getEnv env "RATE_LIMIT_MAX_REQUESTS") "100") }

/-! Theorems about the token utilities and the environment validation. -/

/-- Claim C7 counterexample: at the exact expiry instant the source
reports the token as expired although its expiration is known and is not
in the past, so the stated strict-past condition fails. -/
theorem isTokenExpired_boundary_cex :
    isTokenExpired (.jwt { payload := .refreshId 0, secret := "s", iat := 0, exp := 1 }) 1000 = true ∧
    getTokenExpiration (.jwt { payload := .refreshId 0, secret := "s", iat := 0, exp := 1 }) =
      some 1000 ∧
    ¬ (1000 < 1000) := by
  exact ⟨rfl, rfl, by omega⟩

/-- Claim C7 (amended): isTokenExpired returns true exactly when the
expiration is unknown or is at or before the current instant (the source
uses a non-strict comparison, so a token is already expired at the exact
expiry millisecond). -/
theorem isTokenExpired_iff (tok : Token) (nowMs : Nat) :
    isTokenExpired tok nowMs = true ↔
      getTokenExpiration tok = none ∨
        ∃ e, getTokenExpiration tok = some e ∧ e ≤ nowMs := by
  unfold isTokenExpired
  cases h : getTokenExpiration tok with
  | none => simp
  | some e => simp [h]

/-- Claim C7 witness: an instance of the amended statement at a concrete
malformed token. -/
theorem isTokenExpired_iff_witness :
    isTokenExpired (.malformed "z") 0 = true :=
  (isTokenExpired_iff (.malformed "z") 0).mpr (Or.inl rfl)

/-- Claim C8: extractTokenFromHeader is a total function (never throws);
it returns none exactly when the header is absent or does not start with
the Bearer prefix, and otherwise returns the header text after that
7-character prefix. -/
theorem extractTokenFromHeader_spec (h : Option String) :
    (extractTokenFromHeader h = none ↔
      ∀ s, h = some s → strStartsWith s "Bearer " = false) ∧
    (∀ s, h = some s → strStartsWith s "Bearer " = true →
      extractTokenFromHeader h = some (strDropChars s 7)) := by
  cases h with
  | none =>
      refine ⟨by simp [extractTokenFromHeader], ?_⟩
      intro s hs
      cases hs
  | some s =>
      by_cases hs : s = ""
      · subst hs
        refine ⟨?_, ?_⟩
        · refine ⟨fun _ u hu => ?_, fun _ => rfl⟩
          cases hu
          rfl
        · intro u hu hb
          cases hu
          exact absurd hb (by decide)
      · by_cases hb : strStartsWith s "Bearer " = true
        · refine ⟨?_, ?_⟩
          · simp [extractTokenFromHeader, hs, hb]
          · intro u hu hbu
            cases hu
            simp [extractTokenFromHeader, hs, hb]
        · have hb2 : strStartsWith s "Bearer " = false := by
            cases hx : strStartsWith s "Bearer " with
            | true => exact absurd hx hb
            | false => rfl
          refine ⟨?_, ?_⟩
          · simp [extractTokenFromHeader, hs, hb2]
          · intro u hu hbu
            cases hu
            rw [hb2] at hbu
            cases hbu

/-- Claim C8 witness. -/
theorem extractTokenFromHeader_spec_witness :
    extractTokenFromHeader (some "Bearer abc") = some (strDropChars "Bearer abc" 7) :=
  (extractTokenFromHeader_spec (some "Bearer abc")).2 "Bearer abc" rfl (by decide)

def envRequiredOnly : ProcessEnv :=
  [("DATABASE_URL", "postgres:chat"), ("REDIS_URL", "redis:6379"),
   ("JWT_SECRET", "sa"), ("JWT_REFRESH_SECRET", "sr"), ("FRONTEND_URL", "http:site")]

/-- Claim C5 counterexample: with only the five checked variables present,
the values of the spec list that the source does not check — SMTP
settings, expiry durations, the hashing cost factor, the rate-limit pair —
are all missing, yet validateEnv succeeds instead of failing. -/
theorem validateEnv_cex :
    exceptIsOk (validateEnv envRequiredOnly) = true ∧
    getEnv envRequiredOnly "SMTP_HOST" = none ∧
    getEnv envRequiredOnly "SMTP_USER" = none ∧
    getEnv envRequiredOnly "JWT_EXPIRES_IN" = none ∧
    getEnv envRequiredOnly "JWT_REFRESH_EXPIRES_IN" = none ∧
    getEnv envRequiredOnly "BCRYPT_ROUNDS" = none ∧
    getEnv envRequiredOnly "RATE_LIMIT_WINDOW_MS" = none ∧
    getEnv envRequiredOnly "RATE_LIMIT_MAX_REQUESTS" = none := by
  exact ⟨rfl, rfl, rfl, rfl, rfl, rfl, rfl, rfl⟩

/-- Claim C5 (amended): startup validation fails exactly when one of the
five variables DATABASE_URL, REDIS_URL, JWT_SECRET, JWT_REFRESH_SECRET,
FRONTEND_URL is missing (falsy); every other configuration value falls
back to a default and is never required. -/
theorem validateEnv_ok_iff (env : ProcessEnv) :
    exceptIsOk (validateEnv env) = true ↔
      requiredEnvVars.all (fun v => truthy (getEnv env v)) = true := by
  cases hA : requiredEnvVars.all (fun v => truthy (getEnv env v)) with
  | true =>
      have hfil : requiredEnvVars.filter (fun v => !truthy (getEnv env v)) = [] := by
        rw [List.filter_eq_nil_iff]
        intro a ha
        have := List.all_eq_true.mp hA a ha
        simp [this]
      simp [validateEnv, hfil, exceptIsOk]
  | false =>
      have hne : requiredEnvVars.filter (fun v => !truthy (getEnv env v)) ≠ [] := by
        intro hemp
        have hall : requiredEnvVars.all (fun v => truthy (getEnv env v)) = true := by
          rw [List.all_eq_true]
          intro a ha
          have := List.filter_eq_nil_iff.mp hemp a ha
          simpa using this
        rw [hA] at hall
        cases hall
      have hlen : 0 < (requiredEnvVars.filter (fun v => !truthy (getEnv env v))).length :=
        List.length_pos.mpr hne
      simp [validateEnv, exceptIsOk, hlen]

/-- Claim C5 witness: an instance of the amended statement at the
counterexample environment. -/
theorem validateEnv_ok_iff_witness :
    requiredEnvVars.all (fun v => truthy (getEnv envRequiredOnly v)) = true :=
  (validateEnv_ok_iff envRequiredOnly).mp rfl

/-- Claim C6: generateRefreshToken signs a payload holding only the fresh
token identifier (no user claims); the signing secret is the value of the
refresh-secret variable, which is configured separately from the access
secret; and it fails with the missing-secret configuration error exactly
when that refresh secret is absent (falsy). -/
theorem generateRefreshToken_spec (env : ProcessEnv) (tokenId nowMs : Nat) :
    (exceptIsOk (generateRefreshToken env tokenId nowMs) = false ↔
        truthy (getEnv env "JWT_REFRESH_SECRET") = false) ∧
    (∀ e, generateRefreshToken env tokenId nowMs = .error e →
        e = "JWT_REFRESH_SECRET environment variable is required") ∧
    (∀ t, generateRefreshToken env tokenId nowMs = .ok t →
        t.payload = .refreshId tokenId ∧
        getEnv env "JWT_REFRESH_SECRET" = some t.secret) := by
  unfold generateRefreshToken getRefreshTokenSecret
  cases hg : getEnv env "JWT_REFRESH_SECRET" with
  | none => simp [truthy, exceptIsOk]
  | some s =>
      by_cases hs : s = ""
      · subst hs
        simp [truthy, exceptIsOk]
      · simp only [truthy, exceptIsOk, beq_iff_eq, if_neg hs]
        refine ⟨by simp [hs], by simp, ?_⟩
        intro t ht
        cases ht
        exact ⟨rfl, rfl⟩

/-- Claim C6 witness. -/
theorem generateRefreshToken_spec_witness :
    Jwt.payload { payload := .refreshId 42, secret := "ref", iat := 0, exp := 604800 } =
        JwtPayload.refreshId 42 ∧
    getEnv [("JWT_SECRET", "acc"), ("JWT_REFRESH_SECRET", "ref")] "JWT_REFRESH_SECRET" =
        some (Jwt.secret { payload := .refreshId 42, secret := "ref", iat := 0, exp := 604800 }) :=
  (generateRefreshToken_spec [("JWT_SECRET", "acc"), ("JWT_REFRESH_SECRET", "ref")] 42 0).2.2
    { payload := .refreshId 42, secret := "ref", iat := 0, exp := 604800 } rfl

theorem verifyAccessToken_ok_secret (env : ProcessEnv) (tok : Token) (nowMs : Nat) (s : String)
    (hg : getAccessTokenSecret env = .ok s) :
    verifyAccessToken env tok nowMs =
      match jwtVerify tok s nowMs with
      | some t => .ok t
      | none => .error "Invalid access token" := by
  unfold verifyAccessToken
  rw [hg]

theorem verifyRefreshToken_ok_secret (env : ProcessEnv) (tok : Token) (nowMs : Nat) (s : String)
    (hg : getRefreshTokenSecret env = .ok s) :
    verifyRefreshToken env tok nowMs =
      match jwtVerify tok s nowMs with
      | some t => .ok t
      | none => .error "Invalid refresh token" := by
  unfold verifyRefreshToken
  rw [hg]

/-- Claim C9: both verification functions collapse every failure — a
missing signing secret included — into their single invalid-token error,
so a configuration error never escapes them. -/
theorem verifyToken_single_error (env : ProcessEnv) (tok : Token) (nowMs : Nat) :
    (∀ e, verifyAccessToken env tok nowMs = .error e → e = "Invalid access token") ∧
    (truthy (getEnv env "JWT_SECRET") = false →
        verifyAccessToken env tok nowMs = .error "Invalid access token") ∧
    (∀ e, verifyRefreshToken env tok nowMs = .error e → e = "Invalid refresh token") ∧
    (truthy (getEnv env "JWT_REFRESH_SECRET") = false →
        verifyRefreshToken env tok nowMs = .error "Invalid refresh token") := by
  refine ⟨?_, ?_, ?_, ?_⟩
  · intro e he
    cases hg : getAccessTokenSecret env with
    | error u => unfold verifyAccessToken at he; rw [hg] at he; cases he; rfl
    | ok s =>
        rw [verifyAccessToken_ok_secret env tok nowMs s hg] at he
        cases hv : jwtVerify tok s nowMs with
        | none => rw [hv] at he; cases he; rfl
        | some t => rw [hv] at he; cases he
  · intro hf
    unfold verifyAccessToken getAccessTokenSecret
    cases hg : getEnv env "JWT_SECRET" with
    | none => rfl
    | some s =>
        rw [hg] at hf
        have hse : s = "" := by simpa [truthy] using hf
        subst hse
        rfl
  · intro e he
    cases hg : getRefreshTokenSecret env with
    | error u => unfold verifyRefreshToken at he; rw [hg] at he; cases he; rfl
    | ok s =>
        rw [verifyRefreshToken_ok_secret env tok nowMs s hg] at he
        cases hv : jwtVerify tok s nowMs with
        | none => rw [hv] at he; cases he; rfl
        | some t => rw [hv] at he; cases he
  · intro hf
    unfold verifyRefreshToken getRefreshTokenSecret
    cases hg : getEnv env "JWT_REFRESH_SECRET" with
    | none => rfl
    | some s =>
        rw [hg] at hf
        have hse : s = "" := by simpa [truthy] using hf
        subst hse
        rfl

/-- Claim C9 witness. -/
theorem verifyToken_single_error_witness :
    verifyAccessToken [] (.malformed "x") 0 = .error "Invalid access token" :=
  (verifyToken_single_error [] (.malformed "x") 0).2.1 rfl

/-! Model of the users and user_sessions tables and of UserModel. Row
identifiers and uuid tokens are opaque random values, modelled as natural
numbers drawn from a fresh-value counter carried by the database state;
the ghost field issuedVerificationTokens records every verification token
ever generated, so that freshness can be stated. SQL NULL on a column is
Option.none, and timestamps are milliseconds. -/

structure UserRow where
  id : Nat
  email : String
  username : String
  password_hash : String
  display_name : Option String
  avatar_url : Option String
  bio : Option String
  status : String
  is_verified : Bool
  verification_token : Option Nat
  reset_token : Option Nat
  reset_token_expires : Option Nat
  created_at : Nat
  updated_at : Nat
  last_login : Option Nat
deriving DecidableEq, Repr

structure SessionRow where
  id : Nat
  user_id : Nat
  refresh_token : Jwt
  device_info : Option String
  ip_address : Option String
  expires_at : Nat
  created_at : Nat
deriving DecidableEq, Repr

structure DBState where
  users : List UserRow
  sessions : List SessionRow
  nextUuid : Nat
  issuedVerificationTokens : List Nat
deriving DecidableEq, Repr

/-- Model of the external bcrypt hashing capability: an injective digest
constructor tagged with the cost factor. -/
def bcryptHash (password : String) (rounds : Nat) : String :=
  "bcrypt$" ++ toString rounds ++ "$" ++ password

/-- The cost factor read by UserModel: parseInt of BCRYPT_ROUNDS with the
default 12. -/
def bcryptRounds (env : ProcessEnv) : Nat :=
  (jsParseInt (jsOrStr (getEnv env "BCRYPT_ROUNDS") "12")).getD 12

/-- Values of a result row returned by the store. -/
inductive Value where
  | vstr (s : String)
  | vnat (n : Nat)
  | vbool (b : Bool)
  | vnull
deriving DecidableEq, Repr

structure CreateUserData where
  email : String
  username : String
  password : String
  display_name : Option String
deriving DecidableEq, Repr

/-- The RETURNING projection of the INSERT in UserModel.create: exactly
the eight columns id, email, username, display_name, status, is_verified,
created_at, updated_at. -/
def createReturningRow (u : UserRow) : List (String × Value) :=
  [("id", .vnat u.id), ("email", .vstr u.email), ("username", .vstr u.username),
   ("display_name", match u.display_name with | some d => .vstr d | none => .vnull),
   ("status", .vstr u.status), ("is_verified", .vbool u.is_verified),
   ("created_at", .vnat u.created_at), ("updated_at", .vnat u.updated_at)]

/-- The row inserted by UserModel.create: the hashed password, a fresh
verification token (uuidv4, here the current counter value), a fresh row
id (gen_random_uuid, the next counter value), is_verified false, and the
column defaults of the schema. -/
def insertedUser (env : ProcessEnv) (userData : CreateUserData) (now : Nat) (db : DBState) :
    UserRow :=
  { id := db.nextUuid + 1, email := userData.email, username := userData.username,
    password_hash := bcryptHash userData.password (bcryptRounds env),
    display_name := some (jsOrStr userData.display_name userData.username),
    avatar_url := none, bio := none,
    status := "offline",
    is_verified := false,
    verification_token := some db.nextUuid,
    reset_token := none, reset_token_expires := none,
    created_at := now, updated_at := now, last_login := none }

/-- UserModel.create: hashes the password, draws a fresh verification
token (uuidv4) and a fresh row id (gen_random_uuid), and inserts the row
as unverified with the defaults of the schema; the store rejects a
duplicate email or username through its uniqueness constraints
(ConflictError). The returned row is the RETURNING projection. -/
def UserModel.create (env : ProcessEnv) (userData : CreateUserData) (now : Nat) (db : DBState) :
    Except String (List (String × Value) × DBState) :=
  if db.users.any (fun u => u.email == userData.email || u.username == userData.username) then
    .error "ConflictError"
  else
    let u := insertedUser env userData now db
    .ok (createReturningRow u,
      { users := db.users ++ [u], sessions := db.sessions,
        nextUuid := db.nextUuid + 2,
        issuedVerificationTokens := db.issuedVerificationTokens ++ [db.nextUuid] })

/-- UserModel.verifyEmail: a single conditional UPDATE that sets
is_verified and clears the token on every row holding it, returning
whether the affected row count is positive. -/
def UserModel.verifyEmail (token : Nat) (now : Nat) (db : DBState) : Bool × DBState :=
  let rowCount := (db.users.filter (fun u => u.verification_token == some token)).length
  let users := db.users.map (fun u =>
    if u.verification_token == some token then
      { u with is_verified := true, verification_token := none, updated_at := now }
    else u)
  (decide (0 < rowCount), { db with users := users })

/-- UserModel.findById. -/
def UserModel.findById (id : Nat) (db : DBState) : Option UserRow :=
  db.users.find? (fun u => u.id == id)

def sevenDaysMs : Nat := 7 * 24 * 60 * 60 * 1000

/-- UserModel.createSession: inserts a session whose expires_at is seven
days after the current instant; created_at is the NOW() default of the
schema, the same instant in this single-clock model. -/
def UserModel.createSession (userId : Nat) (refreshToken : Jwt)
    (deviceInfo ipAddress : Option String) (now : Nat) (db : DBState) :
    SessionRow × DBState :=
  let expiresAt := now + sevenDaysMs
  let s : SessionRow := {
    id := db.nextUuid, user_id := userId, refresh_token := refreshToken,
    device_info := deviceInfo, ip_address := ipAddress,
    expires_at := expiresAt, created_at := now }
  (s, { db with sessions := db.sessions ++ [s], nextUuid := db.nextUuid + 1 })

/-- UserModel.findSessionByRefreshToken: SELECT with the strict filter
expires_at > NOW(). -/
def UserModel.findSessionByRefreshToken (refreshToken : Jwt) (now : Nat) (db : DBState) :
    Option SessionRow :=
  db.sessions.find? (fun s => s.refresh_token == refreshToken && decide (now < s.expires_at))

/-- UserModel.deleteSession: DELETE by refresh token, returning whether
any row was removed. -/
def UserModel.deleteSession (refreshToken : Jwt) (db : DBState) : Bool × DBState :=
  let remaining := db.sessions.filter (fun s => !(s.refresh_token == refreshToken))
  (decide (remaining.length < db.sessions.length), { db with sessions := remaining })

theorem verifyEmail_false_of_no_holder (token now : Nat) (db : DBState)
    (h : ∀ u ∈ db.users, u.verification_token ≠ some token) :
    (UserModel.verifyEmail token now db).1 = false := by
  have hnil : db.users.filter (fun u => u.verification_token == some token) = [] := by
    rw [List.filter_eq_nil_iff]
    intro a ha
    simpa using h a ha
  simp [UserModel.verifyEmail, hnil]

/-- Claim C1: verifyEmail consumes the token in one conditional update:
the call returns true exactly when some user holds the token, every
holder is flipped to verified with the token cleared, afterwards no user
holds the token, and therefore a second call with the same token returns
false. -/
theorem verifyEmail_at_most_once (token now now2 : Nat) (db : DBState) :
    ((UserModel.verifyEmail token now db).1 = true ↔
        ∃ u ∈ db.users, u.verification_token = some token) ∧
    (∀ u ∈ db.users, u.verification_token = some token →
        { u with is_verified := true, verification_token := none, updated_at := now } ∈
          (UserModel.verifyEmail token now db).2.users) ∧
    (∀ u ∈ (UserModel.verifyEmail token now db).2.users,
        u.verification_token ≠ some token) ∧
    (UserModel.verifyEmail token now2 (UserModel.verifyEmail token now db).2).1 = false := by
  have h3 : ∀ u ∈ (UserModel.verifyEmail token now db).2.users,
      u.verification_token ≠ some token := by
    intro u hu
    simp only [UserModel.verifyEmail] at hu
    obtain ⟨v, hv, rfl⟩ := List.mem_map.mp hu
    by_cases hvt : v.verification_token = some token
    · simp [hvt]
    · simp [hvt]
  refine ⟨?_, ?_, h3, verifyEmail_false_of_no_holder token now2 _ h3⟩
  · simp only [UserModel.verifyEmail, decide_eq_true_eq, ← List.countP_eq_length_filter,
      List.countP_pos_iff, beq_iff_eq]
  · intro u hu hv
    simp only [UserModel.verifyEmail]
    refine List.mem_map.mpr ⟨u, hu, ?_⟩
    simp [hv]

def sampleUser : UserRow := {
  id := 1, email := "a@x.com", username := "alice", password_hash := "h",
  display_name := none, avatar_url := none, bio := none, status := "offline",
  is_verified := false, verification_token := some 7, reset_token := none,
  reset_token_expires := none, created_at := 0, updated_at := 0, last_login := none }

def sampleDb : DBState :=
  { users := [sampleUser], sessions := [], nextUuid := 8, issuedVerificationTokens := [7] }

/-- Claim C1 witness: with one user holding token 7, the first call
returns true and the second call with the same token returns false. -/
theorem verifyEmail_at_most_once_witness :
    (UserModel.verifyEmail 7 1 sampleDb).1 = true ∧
    (UserModel.verifyEmail 7 2 (UserModel.verifyEmail 7 1 sampleDb).2).1 = false := by
  have h := verifyEmail_at_most_once 7 1 2 sampleDb
  exact ⟨h.1.mpr ⟨sampleUser, by decide, by decide⟩, h.2.2.2⟩

def createData0 : CreateUserData :=
  { email := "a@x.com", username := "alice", password := "pw", display_name := none }

def emptyDb : DBState :=
  { users := [], sessions := [], nextUuid := 0, issuedVerificationTokens := [] }

def createdUser0 : UserRow := {
  id := 1, email := "a@x.com", username := "alice", password_hash := "bcrypt$12$pw",
  display_name := some "alice", avatar_url := none, bio := none, status := "offline",
  is_verified := false, verification_token := some 0, reset_token := none,
  reset_token_expires := none, created_at := 0, updated_at := 0, last_login := none }

def dbAfterCreate0 : DBState :=
  { users := [createdUser0], sessions := [], nextUuid := 2, issuedVerificationTokens := [0] }

/-- Claim C3 counterexample: the RETURNING projection of create omits the
verification token column, so the User value returned to the caller by a
successful registration carries no verification token at all — the claim
that the returned value holds a non-empty token fails at this input. -/
theorem create_returned_token_cex :
    UserModel.create [] createData0 0 emptyDb =
      .ok (createReturningRow createdUser0, dbAfterCreate0) ∧
    (createReturningRow createdUser0).lookup "verification_token" = none ∧
    (createReturningRow createdUser0).lookup "is_verified" = some (.vbool false) := by
  refine ⟨?_, ?_, ?_⟩ <;> rfl

/-- Claim C3 (amended): every successful registration persists the user
with is_verified = false and a fresh non-empty verification token
distinct from every previously issued one, and preserves the freshness
invariant; the row returned to the caller reports is_verified = false but
omits the verification token, which the RETURNING projection excludes. -/
theorem create_fresh_token (env : ProcessEnv) (d : CreateUserData) (now : Nat) (db : DBState)
    (hinv : ∀ t ∈ db.issuedVerificationTokens, t < db.nextUuid) :
    ∀ row db2, UserModel.create env d now db = .ok (row, db2) →
      (∃ u ∈ db2.users, u.email = d.email ∧ u.is_verified = false ∧
        ∃ t, u.verification_token = some t ∧ t ∉ db.issuedVerificationTokens ∧
          t ∈ db2.issuedVerificationTokens) ∧
      row.lookup "is_verified" = some (.vbool false) ∧
      row.lookup "verification_token" = none ∧
      (∀ t ∈ db2.issuedVerificationTokens, t < db2.nextUuid) := by
  intro row db2 h
  unfold UserModel.create at h
  cases hany : db.users.any (fun u => u.email == d.email || u.username == d.username) with
  | true => rw [hany] at h; simp at h
  | false =>
      rw [hany] at h
      simp only [Bool.false_eq_true, if_false, Except.ok.injEq, Prod.mk.injEq] at h
      obtain ⟨hrow, hdb⟩ := h
      subst hrow
      subst hdb
      refine ⟨⟨insertedUser env d now db, ?_, ?_, ?_, db.nextUuid, ?_, ?_, ?_⟩, ?_, ?_, ?_⟩
      · exact List.mem_append_right _ (by simp)
      · rfl
      · rfl
      · rfl
      · intro hmem
        exact absurd (hinv _ hmem) (Nat.lt_irrefl _)
      · exact List.mem_append_right _ (by simp)
      · rfl
      · rfl
      · intro t ht
        show t < db.nextUuid + 2
        rcases List.mem_append.mp ht with hl | hr
        · have := hinv t hl
          omega
        · have : t = db.nextUuid := by simpa using hr
          omega

/-- Claim C3 witness. -/
theorem create_fresh_token_witness :
    (createReturningRow createdUser0).lookup "is_verified" = some (.vbool false) :=
  (create_fresh_token [] createData0 0 emptyDb
    (by intro t ht; simp [emptyDb] at ht)
    (createReturningRow createdUser0) dbAfterCreate0 (by rfl)).2.1

/-- Claim C10: the row returned by a successful create consists of
exactly the eight projected columns — and in particular no password hash
and no reset-token or verification-token fields — for every input. -/
theorem create_projection (env : ProcessEnv) (d : CreateUserData) (now : Nat) (db : DBState) :
    ∀ row db2, UserModel.create env d now db = .ok (row, db2) →
      row.map Prod.fst =
        ["id", "email", "username", "display_name", "status", "is_verified",
         "created_at", "updated_at"] ∧
      row.lookup "password_hash" = none ∧
      row.lookup "reset_token" = none ∧
      row.lookup "reset_token_expires" = none ∧
      row.lookup "verification_token" = none := by
  intro row db2 h
  unfold UserModel.create at h
  cases hany : db.users.any (fun u => u.email == d.email || u.username == d.username) with
  | true => rw [hany] at h; simp at h
  | false =>
      rw [hany] at h
      simp only [Bool.false_eq_true, if_false, Except.ok.injEq, Prod.mk.injEq] at h
      obtain ⟨hrow, hdb⟩ := h
      subst hrow
      exact ⟨rfl, rfl, rfl, rfl, rfl⟩

/-- Claim C10 witness. -/
theorem create_projection_witness :
    (createReturningRow createdUser0).lookup "password_hash" = none :=
  (create_projection [] createData0 0 emptyDb (createReturningRow createdUser0)
    dbAfterCreate0 (by rfl)).2.1

/-- Claim C4: a stored session is returned only while now < expires_at
holds strictly, a miss means every session carrying the token has
expired, and a session created at login expires exactly seven days after
its creation time. -/
theorem session_validity (tok : Jwt) (now : Nat) (db : DBState) (userId : Nat)
    (dev ip : Option String) :
    (∀ s, UserModel.findSessionByRefreshToken tok now db = some s →
        s.refresh_token = tok ∧ now < s.expires_at ∧ s ∈ db.sessions) ∧
    (UserModel.findSessionByRefreshToken tok now db = none →
        ∀ s ∈ db.sessions, s.refresh_token = tok → s.expires_at ≤ now) ∧
    ((UserModel.createSession userId tok dev ip now db).1.expires_at =
        (UserModel.createSession userId tok dev ip now db).1.created_at + sevenDaysMs) := by
  refine ⟨?_, ?_, rfl⟩
  · intro s hs
    unfold UserModel.findSessionByRefreshToken at hs
    have hmem := List.mem_of_find?_eq_some hs
    have hp := List.find?_some hs
    simp only [Bool.and_eq_true, beq_iff_eq, decide_eq_true_eq] at hp
    exact ⟨hp.1, hp.2, hmem⟩
  · intro hn s hmem htok
    unfold UserModel.findSessionByRefreshToken at hn
    have hns := List.find?_eq_none.mp hn s hmem
    simp only [Bool.and_eq_true, beq_iff_eq, decide_eq_true_eq, not_and] at hns
    exact Nat.le_of_not_lt (hns htok)

def jwtR0 : Jwt := { payload := .refreshId 3, secret := "ref", iat := 0, exp := 700000 }

def sessionRow0 : SessionRow := {
  id := 5, user_id := 1, refresh_token := jwtR0, device_info := none, ip_address := none,
  expires_at := 1000, created_at := 0 }

def sessionDb : DBState :=
  { users := [], sessions := [sessionRow0], nextUuid := 6, issuedVerificationTokens := [] }

/-- Claim C4 witness. -/
theorem session_validity_witness :
    sessionRow0.refresh_token = jwtR0 ∧ 500 < sessionRow0.expires_at ∧
      sessionRow0 ∈ sessionDb.sessions :=
  (session_validity jwtR0 500 sessionDb 1 none none).1 sessionRow0 rfl

/-! The Identity Service refresh operation and single-use rotation. -/

/-- Modelled from the spec: the token-pair issue step of refresh once the
current user record has been re-fetched — issue a new pair from the
current claims, delete the session holding the old token, and insert a
session holding the new refresh token. -/
def AuthService.refreshWithUser (env : ProcessEnv) (jt : Jwt) (dev ip : Option String)
    (now : Nat) (db : DBState) (u : UserRow) : Except String (TokenPair × DBState) :=
  match generateTokenPair env
      { userId := u.id, email := u.email, username := u.username,
        isVerified := u.is_verified } db.nextUuid now with
  | .error e => .error e
  | .ok pair =>
      .ok (pair,
        (UserModel.createSession u.id pair.refreshToken dev ip now
          (UserModel.deleteSession jt { db with nextUuid := db.nextUuid + 1 }).2).2)

/-- Modelled from the spec: the user re-fetch step of refresh — the
current user record is re-read so that a fresh pair carries current
claims; a dangling session fails with InvalidTokenError. -/
def AuthService.refreshWithSession (env : ProcessEnv) (jt : Jwt) (dev ip : Option String)
    (now : Nat) (db : DBState) (s : SessionRow) : Except String (TokenPair × DBState) :=
  match UserModel.findById s.user_id db with
  | none => .error "InvalidTokenError"
  | some u => AuthService.refreshWithUser env jt dev ip now db u

/-- Modelled from the spec: the Identity Service refresh orchestration is
missing from the sources under src (only its collaborators UserModel and
JWTUtils are present). Following spec section 4.2, refresh verifies the
refresh token signature, looks up a non-expired session holding the
token, re-fetches the current user record, issues a new token pair, and
replaces the session record (single-use rotation); a bad signature or a
missing session fail with InvalidTokenError. -/
def AuthService.refresh (env : ProcessEnv) (tok : Token) (dev ip : Option String)
    (now : Nat) (db : DBState) : Except String (TokenPair × DBState) :=
  match verifyRefreshToken env tok now with
  | .error _ => .error "InvalidTokenError"
  | .ok _ =>
      match tok with
      | .malformed _ => .error "InvalidTokenError"
      | .jwt jt =>
          match UserModel.findSessionByRefreshToken jt now db with
          | none => .error "InvalidTokenError"
          | some s => AuthService.refreshWithSession env jt dev ip now db s

theorem generateRefreshToken_ok_secret (env : ProcessEnv) (tokenId nowMs : Nat) (s : String)
    (hg : getRefreshTokenSecret env = .ok s) :
    generateRefreshToken env tokenId nowMs =
      .ok { payload := .refreshId tokenId, secret := s, iat := nowMs / 1000,
            exp := nowMs / 1000 +
              parseExpiresIn (jsOrStr (getEnv env "JWT_REFRESH_EXPIRES_IN") "7d") } := by
  unfold generateRefreshToken
  rw [hg]

theorem generateRefreshToken_payload (env : ProcessEnv) (tokenId nowMs : Nat) (r : Jwt)
    (h : generateRefreshToken env tokenId nowMs = .ok r) :
    r.payload = .refreshId tokenId := by
  cases hg : getRefreshTokenSecret env with
  | error e =>
      unfold generateRefreshToken at h
      rw [hg] at h
      cases h
  | ok s =>
      rw [generateRefreshToken_ok_secret env tokenId nowMs s hg] at h
      injection h with h2
      rw [← h2]

theorem generateTokenPair_ok_access (env : ProcessEnv) (claims : AccessClaims)
    (tokenId nowMs : Nat) (a : Jwt) (ha : generateAccessToken env claims nowMs = .ok a) :
    generateTokenPair env claims tokenId nowMs =
      match generateRefreshToken env tokenId nowMs with
      | .error e => .error e
      | .ok r => .ok { accessToken := a, refreshToken := r } := by
  unfold generateTokenPair
  rw [ha]

theorem generateTokenPair_refresh (env : ProcessEnv) (claims : AccessClaims)
    (tokenId nowMs : Nat) (pair : TokenPair)
    (h : generateTokenPair env claims tokenId nowMs = .ok pair) :
    pair.refreshToken.payload = .refreshId tokenId := by
  cases ha : generateAccessToken env claims nowMs with
  | error e =>
      unfold generateTokenPair at h
      rw [ha] at h
      cases h
  | ok a =>
      rw [generateTokenPair_ok_access env claims tokenId nowMs a ha] at h
      cases hr : generateRefreshToken env tokenId nowMs with
      | error e => rw [hr] at h; cases h
      | ok r =>
          rw [hr] at h
          injection h with h2
          rw [← h2]
          exact generateRefreshToken_payload env tokenId nowMs r hr

/-- Claim C2: single-use rotation of refresh tokens: when refresh accepts
a token (whose token identifier, having been issued earlier, lies below
the fresh-value counter), the session holding it is replaced by one
holding the newly issued refresh token, and a second refresh with the
same token fails with InvalidTokenError — a rotated refresh token cannot
be replayed. -/
theorem refresh_rotation (env : ProcessEnv) (tok : Token) (dev ip dev2 ip2 : Option String)
    (now now2 : Nat) (db : DBState) (pair : TokenPair) (dbR : DBState)
    (hfresh : ∀ jt k, tok = Token.jwt jt → jt.payload = JwtPayload.refreshId k →
        k < db.nextUuid)
    (h : AuthService.refresh env tok dev ip now db = .ok (pair, dbR)) :
    AuthService.refresh env tok dev2 ip2 now2 dbR = .error "InvalidTokenError" := by
  cases tok with
  | malformed s0 =>
      exfalso
      cases hg : getRefreshTokenSecret env with
      | error e =>
          unfold AuthService.refresh verifyRefreshToken at h
          rw [hg] at h
          cases h
      | ok sec =>
          unfold AuthService.refresh verifyRefreshToken at h
          rw [hg] at h
          cases h
  | jwt jt =>
      cases hver : verifyRefreshToken env (.jwt jt) now with
      | error e =>
          unfold AuthService.refresh at h
          rw [hver] at h
          cases h
      | ok w =>
          unfold AuthService.refresh at h
          rw [hver] at h
          replace h : (match UserModel.findSessionByRefreshToken jt now db with
              | none => (Except.error "InvalidTokenError" : Except String (TokenPair × DBState))
              | some s => AuthService.refreshWithSession env jt dev ip now db s) =
              .ok (pair, dbR) := h
          cases hsess : UserModel.findSessionByRefreshToken jt now db with
          | none => rw [hsess] at h; cases h
          | some s =>
              rw [hsess] at h
              replace h : AuthService.refreshWithSession env jt dev ip now db s =
                  .ok (pair, dbR) := h
              unfold AuthService.refreshWithSession at h
              cases huser : UserModel.findById s.user_id db with
              | none => rw [huser] at h; cases h
              | some u =>
                  rw [huser] at h
                  replace h : AuthService.refreshWithUser env jt dev ip now db u =
                      .ok (pair, dbR) := h
                  unfold AuthService.refreshWithUser at h
                  cases hgen : generateTokenPair env
                      { userId := u.id, email := u.email, username := u.username,
                        isVerified := u.is_verified } db.nextUuid now with
                  | error e => rw [hgen] at h; cases h
                  | ok pair2 =>
                      rw [hgen] at h
                      replace h : (Except.ok (pair2,
                          (UserModel.createSession u.id pair2.refreshToken dev ip now
                            (UserModel.deleteSession jt
                              { db with nextUuid := db.nextUuid + 1 }).2).2) :
                          Except String (TokenPair × DBState)) = .ok (pair, dbR) := h
                      injection h with h2
                      have hpair : pair2 = pair := congrArg Prod.fst h2
                      have hdbr : (UserModel.createSession u.id pair2.refreshToken dev ip now
                          (UserModel.deleteSession jt
                            { db with nextUuid := db.nextUuid + 1 }).2).2 = dbR :=
                        congrArg Prod.snd h2
                      have hne : pair2.refreshToken ≠ jt := by
                        have hpl := generateTokenPair_refresh env _ db.nextUuid now pair2 hgen
                        intro hEq
                        have hk := hfresh jt db.nextUuid rfl (by rw [← hEq]; exact hpl)
                        exact Nat.lt_irrefl _ hk
                      have hfind : UserModel.findSessionByRefreshToken jt now2 dbR = none := by
                        rw [← hdbr]
                        unfold UserModel.findSessionByRefreshToken
                        rw [List.find?_eq_none]
                        intro s2 hs2
                        rcases List.mem_append.mp hs2 with hl | hr2
                        · have hx := List.of_mem_filter hl
                          simp only [Bool.not_eq_true', beq_eq_false_iff_ne] at hx
                          simp [hx]
                        · have hs2e : s2 = (UserModel.createSession u.id pair2.refreshToken
                              dev ip now (UserModel.deleteSession jt
                                { db with nextUuid := db.nextUuid + 1 }).2).1 := by
                            simpa using hr2
                          subst hs2e
                          simp [UserModel.createSession, hne]
                      cases hver2 : verifyRefreshToken env (.jwt jt) now2 with
                      | error e2 =>
                          unfold AuthService.refresh
                          rw [hver2]
                      | ok w2 =>
                          unfold AuthService.refresh
                          rw [hver2]
                          show (match UserModel.findSessionByRefreshToken jt now2 dbR with
                            | none => (Except.error "InvalidTokenError" :
                                Except String (TokenPair × DBState))
                            | some s2 =>
                                AuthService.refreshWithSession env jt dev2 ip2 now2 dbR s2) =
                              Except.error "InvalidTokenError"
                          rw [hfind]

def refreshEnv : ProcessEnv := [("JWT_SECRET", "acc"), ("JWT_REFRESH_SECRET", "ref")]

def oldRefreshJwt : Jwt := { payload := .refreshId 3, secret := "ref", iat := 0, exp := 100 }

def refreshSession : SessionRow := {
  id := 9, user_id := 1, refresh_token := oldRefreshJwt, device_info := none,
  ip_address := none, expires_at := 10000, created_at := 0 }

def refreshDb : DBState :=
  { users := [sampleUser], sessions := [refreshSession], nextUuid := 4,
    issuedVerificationTokens := [] }

def newRefreshJwt : Jwt := { payload := .refreshId 4, secret := "ref", iat := 0, exp := 604800 }

def newAccessJwt : Jwt :=
  { payload := .access 1 "a@x.com" "alice" false, secret := "acc", iat := 0, exp := 900 }

def newPair0 : TokenPair := { accessToken := newAccessJwt, refreshToken := newRefreshJwt }

def rotatedSession0 : SessionRow := {
  id := 5, user_id := 1, refresh_token := newRefreshJwt, device_info := none,
  ip_address := none, expires_at := 604800500, created_at := 500 }

def dbAfterRefresh0 : DBState :=
  { users := [sampleUser], sessions := [rotatedSession0], nextUuid := 6,
    issuedVerificationTokens := [] }

/-- Claim C2 witness: a concrete rotation — a valid refresh call on a
stored session succeeds, producing the rotated state, on which a second
call with the same token is rejected. -/
theorem refresh_rotation_witness :
    AuthService.refresh refreshEnv (.jwt oldRefreshJwt) none none 900 dbAfterRefresh0 =
      .error "InvalidTokenError" :=
  refresh_rotation refreshEnv (.jwt oldRefreshJwt) none none none none 500 900 refreshDb
    newPair0 dbAfterRefresh0
    (by
      intro jt k hjt hk
      cases hjt
      have hk2 : (3 : Nat) = k := by
        have h3 := hk
        simp only [oldRefreshJwt] at h3
        injection h3
      show k < 4
      omega)
    (by rfl)

end SecureChat
